import Mathlib

/-!
Shallow embedding of `attached_assets/main.py` from the AmbuRush repository.

The program is a single Python script: a YOLO-based ambulance detector driving
a global traffic-light color, plus a Flask endpoint `/update_gps` that stores
GPS coordinates in a global dict, and two stubbed routing helpers.

Modelling choices:
  * the external YOLO detector (`model(frame)`) is abstracted as an input: a
    list of results, each a list of detection boxes, exactly the shape the
    nested `for result in results: for box in result.boxes:` loop consumes;
  * a video frame's pixel contents are abstracted; what the claims talk about
    are the drawing operations applied to the frame, so a `Frame` is the list
    of accumulated drawing operations (`cv2.rectangle`, `cv2.putText`,
    `cv2.circle`);
  * JSON scalar values are strings or rationals (no arithmetic is ever done on
    coordinates, they are only stored and echoed);
  * the Python dict `ambulance_data` is an association list with the usual
    overwrite-on-store semantics; `request.json` is an association list of
    field names to JSON values, and a missing-key lookup (Python `KeyError`)
    is the `none` case;
  * the two globals `ambulance_data` and `traffic_light` are bundled in a
    `SysState` record that the stateful functions thread explicitly.
-/

/-- A BGR color triple as used by OpenCV, e.g. `(0, 0, 255)`. -/
abbrev Color := Nat × Nat × Nat

/-- `RED = (0, 0, 255)` (main.py line 17). -/
def RED : Color := (0, 0, 255)

/-- `GREEN = (0, 255, 0)` (main.py line 18). -/
def GREEN : Color := (0, 255, 0)

/-- A JSON scalar value appearing in a request body: a string or a number. -/
inductive Json where
  | str (s : String)
  | num (q : Rat)
deriving DecidableEq, Repr

/-- The two process-wide mutable globals of main.py:
`ambulance_data = {}` (line 15) and `traffic_light = RED` (line 20).
The dict maps an ambulance id to a `(latitude, longitude)` pair. -/
structure SysState where
  ambulance_data : List (Json × (Json × Json))
  traffic_light : Color
deriving DecidableEq, Repr

/-- The globals as initialized at module load: empty dict, red light. -/
def initState : SysState := { ambulance_data := [], traffic_light := RED }

/-- Python dict store `d[k] = v` on the association-list model:
overwrite the entry for `k` if present, else append. -/
def storeA (k : Json) (v : Json × Json) :
    List (Json × (Json × Json)) → List (Json × (Json × Json))
  | [] => [(k, v)]
  | (k', v') :: rest =>
      if k' = k then (k, v) :: rest else (k', v') :: storeA k v rest

/-- Python dict lookup `d[k]` on the association-list model (`none` = KeyError). -/
def lookupA (k : Json) : List (Json × (Json × Json)) → Option (Json × Json)
  | [] => none
  | (k', v) :: rest => if k' = k then some v else lookupA k rest

/-- Lookup of a field in a JSON request body (`data["field"]`). -/
def lookupField (k : String) : List (String × Json) → Option Json
  | [] => none
  | (k', v) :: rest => if k' = k then some v else lookupField k rest

/-- The JSON response produced by `update_gps` (main.py line 36). -/
structure Response where
  status : String
  ambulance_id : Json
  location : Json × Json
deriving DecidableEq, Repr

/-- `update_gps` (main.py lines 29-36).  Reads `data["ambulance_id"]`,
`data["latitude"]`, `data["longitude"]` in that order, stores the coordinate
pair under the id, and returns the echo response.  A missing field raises
`KeyError` before any mutation, modelled as a `none` response with the state
returned untouched. -/
def update_gps (body : List (String × Json)) (st : SysState) :
    Option Response × SysState :=
  match lookupField "ambulance_id" body with
  | none => (none, st)
  | some ambulance_id =>
    match lookupField "latitude" body with
    | none => (none, st)
    | some lat =>
      match lookupField "longitude" body with
      | none => (none, st)
      | some lon =>
        let gps_location := (lat, lon)
        (some { status := "updated", ambulance_id := ambulance_id,
                location := gps_location },
         { st with ambulance_data := storeA ambulance_id gps_location st.ambulance_data })

/-- `is_ambulance_near` (main.py lines 38-49): the mapping-service call is
commented out; the body is `return False`. -/
def is_ambulance_near (_ambulance_gps : Json × Json) : Bool := false

/-- `get_fastest_route` (main.py lines 51-62): the mapping-service call is
commented out; the body is `return "5 mins", "2 km"`. -/
def get_fastest_route (_ambulance_gps _hospital_gps : Json × Json) :
    String × String := ("5 mins", "2 km")

/-- `change_traffic_light` (main.py lines 64-66):
`traffic_light = GREEN if ambulance_detected else RED`. -/
def change_traffic_light (ambulance_detected : Bool) (st : SysState) : SysState :=
  { st with traffic_light := if ambulance_detected then GREEN else RED }

/-- One detection box produced by the detector for a frame:
`int(box.cls[0])` and the four `int`-cast corner coordinates `box.xyxy[0]`. -/
structure Box where
  cls : Nat
  x1 : Int
  y1 : Int
  x2 : Int
  y2 : Int
deriving DecidableEq, Repr

/-- A drawing operation applied to a frame. -/
inductive DrawOp where
  | rect (p1 p2 : Int × Int) (color : Color) (thickness : Nat)
  | text (s : String) (org : Int × Int) (color : Color) (thickness : Nat)
  | circle (center : Int × Int) (radius : Nat) (color : Color)
deriving DecidableEq, Repr

/-- A frame, abstracted to the list of drawing operations applied to it. -/
abbrev Frame := List DrawOp

/-- The `cv2.rectangle(frame, (x1, y1), (x2, y2), (0, 255, 255), 3)` call of
main.py line 82, for a given box. -/
def rectAnnot (b : Box) : DrawOp :=
  .rect (b.x1, b.y1) (b.x2, b.y2) (0, 255, 255) 3

/-- The `cv2.putText(frame, "AMBULANCE", (x1, y1 - 10), ..., (0, 255, 255), 2)`
call of main.py line 83, for a given box. -/
def textAnnot (b : Box) : DrawOp :=
  .text "AMBULANCE" (b.x1, b.y1 - 10) (0, 255, 255) 2

/-- Body of the inner `for box in result.boxes:` loop of `detect_ambulance`
(main.py lines 77-83), acting on the pair (ambulance_detected, frame). -/
def processBox (acc : Bool × Frame) (box : Box) : Bool × Frame :=
  if box.cls = 5 then
    (true, acc.2 ++ [rectAnnot box, textAnnot box])
  else acc

/-- Body of the outer `for result in results:` loop of `detect_ambulance`. -/
def processResult (acc : Bool × Frame) (boxes : List Box) : Bool × Frame :=
  boxes.foldl processBox acc

/-- `detect_ambulance` (main.py lines 72-84), with the detector output
`results` taken as input.  Returns `ambulance_detected` and the annotated
frame. -/
def detect_ambulance (results : List (List Box)) (frame : Frame) :
    Bool × Frame :=
  results.foldl processResult (false, frame)

/-- `draw_traffic_light` (main.py lines 68-70):
`cv2.circle(frame, (50, 50), 30, traffic_light, -1)`. -/
def draw_traffic_light (st : SysState) (frame : Frame) : Frame :=
  frame ++ [.circle (50, 50) 30 st.traffic_light]

/-- One iteration of the `while cap.isOpened():` loop body (main.py lines
105-113): detect, change the light, draw it.  Returns the new global state and
the annotated frame that is displayed. -/
def process_frame (results : List (List Box)) (frame : Frame)
    (st : SysState) : SysState × Frame :=
  let r := detect_ambulance results frame
  let st' := change_traffic_light r.1 st
  (st', draw_traffic_light st' r.2)

/-- The video loop over a finite sequence of frames, each given by its
detector output; every frame's drawing canvas starts fresh (frames are
ephemeral, read anew from the capture each iteration). -/
def run_loop (framesResults : List (List (List Box))) (st : SysState) :
    SysState :=
  framesResults.foldl (fun s results => (process_frame results [] s).1) st

/-- Parsed CLI arguments (main.py lines 87-90): `--path` an optional
string, `--live` a boolean flag.  `argparse` accepts any combination. -/
structure Args where
  path : Option String
  live : Bool
deriving DecidableEq, Repr

/-- A video source opened by `cv2.VideoCapture`. -/
inductive VideoSource where
  | webcam
  | file (p : String)
deriving DecidableEq, Repr

/-- The source-selection branch of the main block (main.py lines 92-98):
`if args.live:` open the webcam; `elif args.path:` open the file; else print
an error and `exit(1)`.  The error case carries the printed message and the
exit status. -/
def select_source (args : Args) : Except (String × Nat) VideoSource :=
  if args.live then .ok .webcam
  else
    match args.path with
    | some p => .ok (.file p)
    | none =>
        .error ("Error: Please provide either -p/--path for video or -l/--live for webcam.", 1)

/-! ## Helper lemmas -/

/-- The detected flag after the inner box loop: previous flag OR some box of
class 5. -/
lemma foldl_processBox_fst (boxes : List Box) (acc : Bool × Frame) :
    (boxes.foldl processBox acc).1 =
      (acc.1 || boxes.any (fun b => decide (b.cls = 5))) := by
  induction boxes generalizing acc with
  | nil => simp
  | cons b bs ih =>
      simp only [List.foldl_cons, List.any_cons, ih]
      by_cases h : b.cls = 5 <;>
        simp [processBox, h, Bool.or_assoc]

/-- The detected flag after the outer result loop. -/
lemma foldl_processResult_fst (results : List (List Box)) (acc : Bool × Frame) :
    (results.foldl processResult acc).1 =
      (acc.1 || results.any (fun bs => bs.any (fun b => decide (b.cls = 5)))) := by
  induction results generalizing acc with
  | nil => simp
  | cons bs rest ih =>
      simp only [List.foldl_cons, List.any_cons, ih, processResult,
        foldl_processBox_fst, Bool.or_assoc]

/-- `detect_ambulance` reports presence iff some box in some result has class
id 5; in particular the flag does not depend on the frame. -/
lemma detect_ambulance_fst (results : List (List Box)) (frame : Frame) :
    (detect_ambulance results frame).1 =
      results.any (fun bs => bs.any (fun b => decide (b.cls = 5))) := by
  simp [detect_ambulance, foldl_processResult_fst]

/-- Drawing operations already on the frame survive one box step. -/
lemma mem_processBox (x : DrawOp) (acc : Bool × Frame) (b : Box)
    (h : x ∈ acc.2) : x ∈ (processBox acc b).2 := by
  unfold processBox
  split <;> simp [h]

/-- Drawing operations already on the frame survive the inner loop. -/
lemma mem_foldl_processBox (x : DrawOp) (boxes : List Box) (acc : Bool × Frame)
    (h : x ∈ acc.2) : x ∈ (boxes.foldl processBox acc).2 := by
  induction boxes generalizing acc with
  | nil => exact h
  | cons b bs ih => exact ih _ (mem_processBox x acc b h)

/-- Drawing operations already on the frame survive the outer loop. -/
lemma mem_foldl_processResult (x : DrawOp) (results : List (List Box))
    (acc : Bool × Frame) (h : x ∈ acc.2) :
    x ∈ (results.foldl processResult acc).2 := by
  induction results generalizing acc with
  | nil => exact h
  | cons bs rest ih => exact ih _ (mem_foldl_processBox x bs acc h)

/-- A class-5 box in the inner loop gets its rectangle and label drawn. -/
lemma annot_mem_foldl_processBox (b : Box) (h5 : b.cls = 5) :
    ∀ (boxes : List Box) (acc : Bool × Frame), b ∈ boxes →
      rectAnnot b ∈ (boxes.foldl processBox acc).2 ∧
        textAnnot b ∈ (boxes.foldl processBox acc).2 := by
  intro boxes
  induction boxes with
  | nil => intro acc h; cases h
  | cons c cs ih =>
      intro acc hmem
      rcases List.mem_cons.1 hmem with heq | htail
      · subst heq
        rw [List.foldl_cons]
        constructor
        · apply mem_foldl_processBox
          simp [processBox, h5]
        · apply mem_foldl_processBox
          simp [processBox, h5]
      · rw [List.foldl_cons]
        exact ih (processBox acc c) htail

/-- A class-5 box in some result gets its rectangle and label drawn. -/
lemma annot_mem_foldl_processResult (b : Box) (bs : List Box) (h5 : b.cls = 5)
    (hmem : b ∈ bs) :
    ∀ (results : List (List Box)) (acc : Bool × Frame), bs ∈ results →
      rectAnnot b ∈ (results.foldl processResult acc).2 ∧
        textAnnot b ∈ (results.foldl processResult acc).2 := by
  intro results
  induction results with
  | nil => intro acc h; cases h
  | cons cs rest ih =>
      intro acc hbs
      rcases List.mem_cons.1 hbs with heq | htail
      · subst heq
        rw [List.foldl_cons]
        constructor
        · apply mem_foldl_processResult
          exact (annot_mem_foldl_processBox b h5 bs acc hmem).1
        · apply mem_foldl_processResult
          exact (annot_mem_foldl_processBox b h5 bs acc hmem).2
      · rw [List.foldl_cons]
        exact ih (processResult acc cs) htail

/-- Looking up a key right after storing it yields the stored value. -/
lemma lookupA_storeA_same (k : Json) (v : Json × Json)
    (m : List (Json × (Json × Json))) : lookupA k (storeA k v m) = some v := by
  induction m with
  | nil => simp [storeA, lookupA]
  | cons p rest ih =>
      obtain ⟨k', v'⟩ := p
      by_cases h : k' = k
      · simp [storeA, lookupA, h]
      · simp [storeA, lookupA, h, ih]

/-- Storing under a key leaves every other key's lookup unchanged. -/
lemma lookupA_storeA_ne (k k' : Json) (v : Json × Json)
    (m : List (Json × (Json × Json))) (hne : k ≠ k') :
    lookupA k (storeA k' v m) = lookupA k m := by
  induction m with
  | nil => simp [storeA, lookupA, Ne.symm hne]
  | cons p rest ih =>
      obtain ⟨k₀, v₀⟩ := p
      by_cases h : k₀ = k'
      · subst h
        simp [storeA, lookupA, Ne.symm hne]
      · by_cases h2 : k₀ = k <;> simp [storeA, lookupA, h, h2, hne, ih]

/-- Two stores under the same key collapse to the second: last write wins,
no trace of the first value remains anywhere in the mapping. -/
lemma storeA_storeA_same (k : Json) (v₁ v₂ : Json × Json)
    (m : List (Json × (Json × Json))) :
    storeA k v₂ (storeA k v₁ m) = storeA k v₂ m := by
  induction m with
  | nil => simp [storeA]
  | cons p rest ih =>
      obtain ⟨k', v'⟩ := p
      by_cases h : k' = k
      · simp [storeA, h]
      · simp [storeA, h, ih]

/-- `change_traffic_light` only ever writes one of the two colors. -/
lemma change_traffic_light_cases (d : Bool) (st : SysState) :
    (change_traffic_light d st).traffic_light = RED ∨
      (change_traffic_light d st).traffic_light = GREEN := by
  cases d <;> simp [change_traffic_light]

/-- The loop preserves the two-color invariant on the light. -/
lemma run_loop_light (framesResults : List (List (List Box))) (st : SysState)
    (h : st.traffic_light = RED ∨ st.traffic_light = GREEN) :
    (run_loop framesResults st).traffic_light = RED ∨
      (run_loop framesResults st).traffic_light = GREEN := by
  induction framesResults generalizing st with
  | nil => exact h
  | cons f fs ih =>
      apply ih
      simp only [process_frame]
      exact change_traffic_light_cases _ _

/-- Appending one more frame to the loop input runs the loop and then one
more iteration on the final frame. -/
lemma run_loop_append_one (prev : List (List (List Box)))
    (results : List (List Box)) (st : SysState) :
    run_loop (prev ++ [results]) st =
      (process_frame results [] (run_loop prev st)).1 := by
  simp [run_loop, List.foldl_append]

/-! ## Claim theorems -/

/-- C1: after the loop body runs `change_traffic_light`, the global light is
GREEN exactly when `detect_ambulance` reported presence for the current
frame and RED otherwise; the result is independent of the prior state
(the left conjunct holds for every incoming state `st`, and the state after
processing a final frame depends only on that frame, not on the history
`prev` or the initial state `st₀`). -/
theorem c1_signal_follows_current_detection
    (results : List (List Box)) (frame : Frame) (st st₀ : SysState)
    (prev : List (List (List Box))) :
    (process_frame results frame st).1.traffic_light =
      (if (detect_ambulance results frame).1 then GREEN else RED)
    ∧ (run_loop (prev ++ [results]) st₀).traffic_light =
      (if (detect_ambulance results []).1 then GREEN else RED) := by
  constructor
  · simp [process_frame, change_traffic_light]
  · rw [run_loop_append_one]
    simp [process_frame, change_traffic_light]

/-- C2: `detect_ambulance` reports presence iff some detection has class id
5, and on presence the returned frame carries the highlighted rectangle and
the "AMBULANCE" text label of a matching detection. -/
theorem c2_detect_iff_class5_and_annotates
    (results : List (List Box)) (frame : Frame) :
    ((detect_ambulance results frame).1 = true ↔
      ∃ bs ∈ results, ∃ b ∈ bs, b.cls = 5)
    ∧ ((detect_ambulance results frame).1 = true →
      ∃ bs ∈ results, ∃ b ∈ bs, b.cls = 5 ∧
        rectAnnot b ∈ (detect_ambulance results frame).2 ∧
        textAnnot b ∈ (detect_ambulance results frame).2) := by
  have hiff : (detect_ambulance results frame).1 = true ↔
      ∃ bs ∈ results, ∃ b ∈ bs, b.cls = 5 := by
    rw [detect_ambulance_fst]
    simp [List.any_eq_true]
  refine ⟨hiff, fun h => ?_⟩
  obtain ⟨bs, hbs, b, hmem, h5⟩ := hiff.1 h
  refine ⟨bs, hbs, b, hmem, h5, ?_⟩
  exact annot_mem_foldl_processResult b bs h5 hmem results (false, frame) hbs

/-- C6: the proximity stub returns false for every input coordinate pair. -/
theorem c6_is_ambulance_near_always_false :
    ∀ gps : Json × Json, is_ambulance_near gps = false :=
  fun _ => rfl

/-- C7: the route stub returns the literal pair ("5 mins", "2 km") for every
pair of input coordinates. -/
theorem c7_get_fastest_route_constant :
    ∀ a h : Json × Json, get_fastest_route a h = ("5 mins", "2 km") :=
  fun _ _ => rfl

/-- C10: the global light starts RED, every write by `change_traffic_light`
is RED or GREEN, and hence after any run of the loop from the initial state
the light is RED or GREEN. -/
theorem c10_traffic_light_two_colors :
    initState.traffic_light = RED
    ∧ (∀ (d : Bool) (st : SysState),
        (change_traffic_light d st).traffic_light = RED ∨
          (change_traffic_light d st).traffic_light = GREEN)
    ∧ (∀ framesResults,
        (run_loop framesResults initState).traffic_light = RED ∨
          (run_loop framesResults initState).traffic_light = GREEN) := by
  refine ⟨rfl, change_traffic_light_cases, fun fr => ?_⟩
  exact run_loop_light fr initState (Or.inl rfl)

/-- C3: a POST body carrying all three fields stores (latitude, longitude)
under the ambulance id and echoes status "updated" with the same id and
pair. -/
theorem c3_update_gps_stores_and_echoes
    (body : List (String × Json)) (st : SysState) (amb lat lon : Json)
    (ha : lookupField "ambulance_id" body = some amb)
    (hb : lookupField "latitude" body = some lat)
    (hc : lookupField "longitude" body = some lon) :
    (update_gps body st).1 =
      some { status := "updated", ambulance_id := amb, location := (lat, lon) }
    ∧ lookupA amb (update_gps body st).2.ambulance_data = some (lat, lon) := by
  simp [update_gps, ha, hb, hc, lookupA_storeA_same]

/-- Witness for C3 at the spec's concrete request:
id "A1", latitude 1, longitude 2, starting from the initial state. -/
theorem c3_witness :
    (lookupField "ambulance_id"
        [("ambulance_id", Json.str "A1"), ("latitude", Json.num 1),
          ("longitude", Json.num 2)] = some (Json.str "A1")
      ∧ lookupField "latitude"
        [("ambulance_id", Json.str "A1"), ("latitude", Json.num 1),
          ("longitude", Json.num 2)] = some (Json.num 1)
      ∧ lookupField "longitude"
        [("ambulance_id", Json.str "A1"), ("latitude", Json.num 1),
          ("longitude", Json.num 2)] = some (Json.num 2))
    ∧ ((update_gps
        [("ambulance_id", Json.str "A1"), ("latitude", Json.num 1),
          ("longitude", Json.num 2)] initState).1 =
      some { status := "updated", ambulance_id := Json.str "A1",
             location := (Json.num 1, Json.num 2) }
    ∧ lookupA (Json.str "A1")
        (update_gps
          [("ambulance_id", Json.str "A1"), ("latitude", Json.num 1),
            ("longitude", Json.num 2)] initState).2.ambulance_data =
      some (Json.num 1, Json.num 2)) :=
  ⟨⟨by decide, by decide, by decide⟩,
    c3_update_gps_stores_and_echoes
      [("ambulance_id", Json.str "A1"), ("latitude", Json.num 1),
        ("longitude", Json.num 2)] initState
      (Json.str "A1") (Json.num 1) (Json.num 2)
      (by decide) (by decide) (by decide)⟩

/-- C4: a second well-formed update with the same id makes the mapping equal
to a single store of the second pair over the original state (last write
wins, no history), and the lookup yields the second pair. -/
theorem c4_second_update_overwrites
    (body₁ body₂ : List (String × Json)) (st : SysState)
    (amb lat₁ lon₁ lat₂ lon₂ : Json)
    (ha₁ : lookupField "ambulance_id" body₁ = some amb)
    (hb₁ : lookupField "latitude" body₁ = some lat₁)
    (hc₁ : lookupField "longitude" body₁ = some lon₁)
    (ha₂ : lookupField "ambulance_id" body₂ = some amb)
    (hb₂ : lookupField "latitude" body₂ = some lat₂)
    (hc₂ : lookupField "longitude" body₂ = some lon₂) :
    (update_gps body₂ (update_gps body₁ st).2).2.ambulance_data =
      storeA amb (lat₂, lon₂) st.ambulance_data
    ∧ lookupA amb
        (update_gps body₂ (update_gps body₁ st).2).2.ambulance_data =
      some (lat₂, lon₂) := by
  simp [update_gps, ha₁, hb₁, hc₁, ha₂, hb₂, hc₂, storeA_storeA_same,
    lookupA_storeA_same]

/-- Witness for C4: two updates for id "A1", first (1, 2), then (3, 4). -/
theorem c4_witness :
    (lookupField "ambulance_id"
        [("ambulance_id", Json.str "A1"), ("latitude", Json.num 1),
          ("longitude", Json.num 2)] = some (Json.str "A1")
      ∧ lookupField "ambulance_id"
        [("ambulance_id", Json.str "A1"), ("latitude", Json.num 3),
          ("longitude", Json.num 4)] = some (Json.str "A1"))
    ∧ ((update_gps
          [("ambulance_id", Json.str "A1"), ("latitude", Json.num 3),
            ("longitude", Json.num 4)]
          (update_gps
            [("ambulance_id", Json.str "A1"), ("latitude", Json.num 1),
              ("longitude", Json.num 2)] initState).2).2.ambulance_data =
        storeA (Json.str "A1") (Json.num 3, Json.num 4)
          initState.ambulance_data
      ∧ lookupA (Json.str "A1")
          (update_gps
            [("ambulance_id", Json.str "A1"), ("latitude", Json.num 3),
              ("longitude", Json.num 4)]
            (update_gps
              [("ambulance_id", Json.str "A1"), ("latitude", Json.num 1),
                ("longitude", Json.num 2)] initState).2).2.ambulance_data =
        some (Json.num 3, Json.num 4)) :=
  ⟨⟨by decide, by decide⟩,
    c4_second_update_overwrites
      [("ambulance_id", Json.str "A1"), ("latitude", Json.num 1),
        ("longitude", Json.num 2)]
      [("ambulance_id", Json.str "A1"), ("latitude", Json.num 3),
        ("longitude", Json.num 4)] initState
      (Json.str "A1") (Json.num 1) (Json.num 2) (Json.num 3) (Json.num 4)
      (by decide) (by decide) (by decide) (by decide) (by decide) (by decide)⟩

/-- C8: a POST body missing any of the three fields makes the handler raise
an unhandled KeyError (no response is produced) and leaves the global GPS
mapping — indeed the whole state — unchanged, since all three lookups happen
before the store. -/
theorem c8_missing_field_crashes_state_unchanged
    (body : List (String × Json)) (st : SysState)
    (h : lookupField "ambulance_id" body = none ∨
      lookupField "latitude" body = none ∨
      lookupField "longitude" body = none) :
    update_gps body st = (none, st) := by
  rcases h with h | h | h
  · simp [update_gps, h]
  · cases e₁ : lookupField "ambulance_id" body <;>
      simp [update_gps, e₁, h]
  · cases e₁ : lookupField "ambulance_id" body <;>
      cases e₂ : lookupField "latitude" body <;>
        simp [update_gps, e₁, e₂, h]

/-- Witness for C8: a body that names the ambulance but has no latitude
field; the handler crashes and the initial state is untouched. -/
theorem c8_witness :
    (lookupField "ambulance_id"
        [("ambulance_id", Json.str "A1"), ("longitude", Json.num 2)] = none
      ∨ lookupField "latitude"
        [("ambulance_id", Json.str "A1"), ("longitude", Json.num 2)] = none
      ∨ lookupField "longitude"
        [("ambulance_id", Json.str "A1"), ("longitude", Json.num 2)] = none)
    ∧ update_gps [("ambulance_id", Json.str "A1"), ("longitude", Json.num 2)]
        initState = (none, initState) :=
  ⟨by decide,
    c8_missing_field_crashes_state_unchanged
      [("ambulance_id", Json.str "A1"), ("longitude", Json.num 2)] initState
      (by decide)⟩

/-- C9: a well-formed update touches at most the entry of its own ambulance
id: any other key's lookup and the traffic light are unchanged. -/
theorem c9_update_gps_frame_effect
    (body : List (String × Json)) (st : SysState) (amb lat lon k : Json)
    (ha : lookupField "ambulance_id" body = some amb)
    (hb : lookupField "latitude" body = some lat)
    (hc : lookupField "longitude" body = some lon)
    (hk : k ≠ amb) :
    lookupA k (update_gps body st).2.ambulance_data =
      lookupA k st.ambulance_data
    ∧ (update_gps body st).2.traffic_light = st.traffic_light := by
  simp [update_gps, ha, hb, hc, lookupA_storeA_ne k amb (lat, lon) _ hk]

/-- Witness for C9: updating "A1" leaves the stored entry of "B2" and the
light color of a concrete pre-state unchanged. -/
theorem c9_witness :
    (lookupField "ambulance_id"
        [("ambulance_id", Json.str "A1"), ("latitude", Json.num 1),
          ("longitude", Json.num 2)] = some (Json.str "A1")
      ∧ Json.str "B2" ≠ Json.str "A1")
    ∧ (lookupA (Json.str "B2")
        (update_gps
          [("ambulance_id", Json.str "A1"), ("latitude", Json.num 1),
            ("longitude", Json.num 2)]
          { ambulance_data := [(Json.str "B2", (Json.num 9, Json.num 8))],
            traffic_light := RED }).2.ambulance_data =
      lookupA (Json.str "B2")
        [(Json.str "B2", (Json.num 9, Json.num 8))]
    ∧ (update_gps
        [("ambulance_id", Json.str "A1"), ("latitude", Json.num 1),
          ("longitude", Json.num 2)]
        { ambulance_data := [(Json.str "B2", (Json.num 9, Json.num 8))],
          traffic_light := RED }).2.traffic_light = RED) :=
  ⟨⟨by decide, by decide⟩,
    c9_update_gps_frame_effect
      [("ambulance_id", Json.str "A1"), ("latitude", Json.num 1),
        ("longitude", Json.num 2)]
      { ambulance_data := [(Json.str "B2", (Json.num 9, Json.num 8))],
        traffic_light := RED }
      (Json.str "A1") (Json.num 1) (Json.num 2) (Json.str "B2")
      (by decide) (by decide) (by decide) (by decide)⟩

/-- C5 counterexample: the two CLI flags are NOT mutually exclusive — when
both `--path video.mp4` and `--live` are supplied, `argparse` accepts the
combination and the program silently opens the webcam instead of rejecting
the input. -/
theorem c5_counterexample :
    select_source { path := some "video.mp4", live := true } =
      Except.ok VideoSource.webcam := rfl

/-- C5 amended: when both flags are given the live flag takes precedence and
the webcam is opened (no mutual-exclusion error); when both are absent the
program prints the error message and exits with status 1, opening no video
source. -/
theorem c5_cli_amended :
    (∀ p : String,
      select_source { path := some p, live := true } =
        Except.ok VideoSource.webcam)
    ∧ select_source { path := none, live := false } =
      Except.error
        ("Error: Please provide either -p/--path for video or -l/--live for webcam.",
          1) :=
  ⟨fun _ => rfl, rfl⟩
